import Mathlib

/-!
Verification of the two numerical components of the repository:

* `gather_positions` from
  `applications/tensorflow2/bert/model/ipu_pretraining_model.py` —
  the masked-position gather used by the BERT pretraining wrapper;
* the `LARSIpuOptimizer` from
  `applications/tensorflow2/image_classification/optimizers/lars_optimizer.py` —
  the layer-wise adaptive rate scaling optimizer.

Tensors are embedded as nested lists.  Exact arithmetic (`ℚ` for
configuration values and for the gather, `ℝ` where the optimizer takes
square roots) replaces the floating-point dtypes of the source; dtype
casts in the source are therefore identities and are not modelled.
-/

/-! ## Masked-position gather (ipu_pretraining_model.py, lines 28-46) -/

/-- Row-major reshape of a flat list into `b` rows of `m` elements each,
embedding the final `tf.reshape(output_tensor, (micro_batch_size,
num_masked_tokens, hidden_size))` of `gather_positions`. -/
def chunkList {α : Type} : Nat → Nat → List α → List (List α)
  | 0, _, _ => []
  | b + 1, m, l => l.take m :: chunkList b m (l.drop m)

/-- Embedding of `gather_positions` (ipu_pretraining_model.py lines 28-46).
The input tensor of shape (micro_batch_size, seq_length, hidden_size) is a
nested list; a 2-d tensor of row-major shape (a, b) flattens to a list of
a·b entries, so `tf.reshape(x, (-1,))` and
`tf.reshape(inputs, (micro_batch_size * seq_length, hidden_size))` are both
`List.flatten`, and the broadcast add `positions + flat_offsets` of shapes
(B, M) + (B, 1) adds each batch row's offset to every entry of that row.
`ipu.ops.embedding_ops.embedding_lookup` is a per-index row lookup into the
flattened sequence tensor (`serialization_factor=1` only affects device
scheduling). -/
def gather_positions (inputs : List (List (List ℚ))) (positions : List (List Nat)) :
    List (List (List ℚ)) :=
  let micro_batch_size := inputs.length
  let seq_length := (inputs.headD []).length
  let num_masked_tokens := (positions.headD []).length
  let flat_offsets := (List.range micro_batch_size).map (fun b => b * seq_length)
  let flat_positions :=
    ((positions.zip flat_offsets).map (fun pr => pr.1.map (fun q => q + pr.2))).flatten
  let flat_sequence_tensor := inputs.flatten
  let output_tensor := flat_positions.map (fun i => flat_sequence_tensor.getD i [])
  chunkList micro_batch_size num_masked_tokens output_tensor

lemma chunkList_flatten {α : Type} (m : Nat) (L : List (List α))
    (h : ∀ r ∈ L, r.length = m) :
    chunkList L.length m L.flatten = L := by
  induction L with
  | nil => rfl
  | cons a L ih =>
    have ha : a.length = m := h a (by simp)
    have htake : (a ++ L.flatten).take m = a := by
      rw [← ha]
      exact List.take_left a L.flatten
    have hdrop : (a ++ L.flatten).drop m = L.flatten := by
      rw [← ha]
      exact List.drop_left a L.flatten
    simp only [List.length_cons, List.flatten_cons, chunkList]
    rw [htake, hdrop, ih (fun r hr => h r (by simp [hr]))]

lemma flatten_getD {α : Type} (L : List (List α)) (S : Nat) (d : α)
    (hS : ∀ r ∈ L, r.length = S) (b q : Nat) (hb : b < L.length) (hq : q < S) :
    L.flatten.getD (b * S + q) d = (L.getD b []).getD q d := by
  induction L generalizing b with
  | nil => simp at hb
  | cons r L ih =>
    have hr : r.length = S := hS r (by simp)
    cases b with
    | zero =>
      simp only [List.flatten_cons, Nat.zero_mul, Nat.zero_add, List.getD_cons_zero]
      exact List.getD_append r L.flatten d q (by omega)
    | succ b =>
      have harith : (b + 1) * S + q = r.length + (b * S + q) := by rw [hr]; ring
      rw [List.flatten_cons, harith,
        List.getD_append_right r L.flatten d _ (by omega), List.getD_cons_succ]
      have : r.length + (b * S + q) - r.length = b * S + q := by omega
      rw [this]
      exact ih (fun x hx => hS x (by simp [hx])) b (by simpa using hb)

/-- Closed form of `gather_positions` under the tensor shape invariants:
row `b` of the result is the per-batch lookup row. -/
lemma gather_positions_eq (inputs : List (List (List ℚ))) (positions : List (List Nat))
    (S M : Nat) (hS : ∀ r ∈ inputs, r.length = S)
    (hPB : positions.length = inputs.length)
    (hPM : ∀ p ∈ positions, p.length = M) :
    gather_positions inputs positions =
      (positions.zip ((List.range inputs.length).map (fun b => b * S))).map
        (fun pr => pr.1.map (fun q => inputs.flatten.getD (q + pr.2) [])) := by
  cases inputs with
  | nil =>
    have : positions = [] := List.length_eq_zero.mp (by simpa using hPB)
    subst this
    rfl
  | cons r rest =>
    have hseq : ((r :: rest).headD []).length = S := hS r (by simp)
    have hpos_ne : positions ≠ [] := by
      intro h
      rw [h] at hPB
      simp at hPB
    have hM : ((positions.headD []).length) = M := by
      cases positions with
      | nil => exact absurd rfl hpos_ne
      | cons p ps => exact hPM p (by simp)
    simp only [gather_positions, hseq, hM]
    set offsets := (List.range (r :: rest).length).map (fun b => b * S) with hoff
    set L' := (positions.zip offsets).map
      (fun pr => pr.1.map (fun q => (r :: rest).flatten.getD (q + pr.2) [])) with hL'
    have hmapflat :
        ((positions.zip offsets).map (fun pr => pr.1.map (fun q => q + pr.2))).flatten.map
            (fun i => (r :: rest).flatten.getD i []) = L'.flatten := by
      rw [List.map_flatten, List.map_map, hL']
      refine congrArg List.flatten (List.map_congr_left ?_)
      intro pr _
      simp [List.map_map, Function.comp]
    rw [hmapflat]
    have hlenL' : L'.length = (r :: rest).length := by
      simp [hL', hoff, hPB]
    have hrowsL' : ∀ row ∈ L', row.length = M := by
      intro row hrow
      rw [hL'] at hrow
      obtain ⟨pr, hpr, hprrow⟩ := List.mem_map.mp hrow
      have hmem := List.of_mem_zip hpr
      rw [← hprrow]
      simpa using hPM pr.1 hmem.1
    rw [← hlenL', chunkList_flatten M L' hrowsL']

/-- Length of the gather output equals the batch size. -/
lemma gather_positions_length (inputs : List (List (List ℚ))) (positions : List (List Nat))
    (S M : Nat) (hS : ∀ r ∈ inputs, r.length = S)
    (hPB : positions.length = inputs.length)
    (hPM : ∀ p ∈ positions, p.length = M) :
    (gather_positions inputs positions).length = inputs.length := by
  rw [gather_positions_eq inputs positions S M hS hPB hPM]
  simp [hPB]

/-- Row `b` of the gather output, in terms of the flattened input. -/
lemma gather_positions_row (inputs : List (List (List ℚ))) (positions : List (List Nat))
    (S M : Nat) (hS : ∀ r ∈ inputs, r.length = S)
    (hPB : positions.length = inputs.length)
    (hPM : ∀ p ∈ positions, p.length = M)
    (b : Nat) (hb : b < inputs.length) :
    (gather_positions inputs positions).getD b [] =
      (positions.getD b []).map (fun q => inputs.flatten.getD (q + b * S) []) := by
  rw [gather_positions_eq inputs positions S M hS hPB hPM]
  have hzlen : (positions.zip ((List.range inputs.length).map (fun b => b * S))).length =
      inputs.length := by simp [hPB]
  rw [List.getD_eq_getElem _ _ (by simpa [hzlen] using hb), List.getElem_map,
    List.getElem_zip, List.getElem_map, List.getElem_range,
    List.getD_eq_getElem _ _ (by omega : b < positions.length)]

/-- C1: for every hidden-state tensor of shape (B, S, H) and every position
tensor of shape (B, M) whose entries all lie in [0, S), `gather_positions`
returns a tensor of shape (B, M, H) such that output[b, m, :] equals
hidden[b, position[b, m], :] exactly, for all b < B and m < M. -/
theorem gather_positions_correct (inputs : List (List (List ℚ)))
    (positions : List (List Nat)) (B S H M : Nat)
    (hB : inputs.length = B) (hS : ∀ r ∈ inputs, r.length = S)
    (hH : ∀ r ∈ inputs, ∀ v ∈ r, v.length = H)
    (hPB : positions.length = B) (hPM : ∀ p ∈ positions, p.length = M)
    (hrange : ∀ p ∈ positions, ∀ q ∈ p, q < S) :
    (gather_positions inputs positions).length = B ∧
    (∀ row ∈ gather_positions inputs positions, row.length = M) ∧
    (∀ row ∈ gather_positions inputs positions, ∀ v ∈ row, v.length = H) ∧
    (∀ b, b < B → ∀ m, m < M →
      ((gather_positions inputs positions).getD b []).getD m [] =
        (inputs.getD b []).getD ((positions.getD b []).getD m 0) []) := by
  have hPB' : positions.length = inputs.length := by omega
  have hlen : (gather_positions inputs positions).length = B := by
    rw [gather_positions_length inputs positions S M hS hPB' hPM, hB]
  have hrow : ∀ b, b < B →
      (gather_positions inputs positions).getD b [] =
        (positions.getD b []).map (fun q => inputs.flatten.getD (q + b * S) []) := by
    intro b hb
    exact gather_positions_row inputs positions S M hS hPB' hPM b (by omega)
  have hentry : ∀ b, b < B → ∀ q, q < S →
      inputs.flatten.getD (q + b * S) [] = (inputs.getD b []).getD q [] := by
    intro b hb q hq
    rw [Nat.add_comm]
    exact flatten_getD inputs S [] hS b q (by omega) hq
  refine ⟨hlen, ?_, ?_, ?_⟩
  · intro row hrowmem
    obtain ⟨b, hb, hbrow⟩ := List.mem_iff_getElem.mp hrowmem
    rw [← List.getD_eq_getElem _ [] hb, hrow b (by omega)] at hbrow
    rw [← hbrow, List.length_map,
      List.getD_eq_getElem _ [] (by omega : b < positions.length)]
    exact hPM _ (List.getElem_mem _)
  · intro row hrowmem v hv
    obtain ⟨b, hb, hbrow⟩ := List.mem_iff_getElem.mp hrowmem
    rw [← List.getD_eq_getElem _ [] hb, hrow b (by omega)] at hbrow
    rw [← hbrow] at hv
    obtain ⟨q, hqmem, hqv⟩ := List.mem_map.mp hv
    have hbpos : b < positions.length := by omega
    have hqS : q < S := by
      refine hrange (positions.getD b []) ?_ q hqmem
      rw [List.getD_eq_getElem _ [] hbpos]
      exact List.getElem_mem _
    have hbinp : b < inputs.length := by omega
    rw [← hqv, hentry b (by omega) q hqS,
      List.getD_eq_getElem _ [] hbinp,
      List.getD_eq_getElem _ [] (by rw [hS _ (List.getElem_mem _)]; exact hqS)]
    exact hH _ (List.getElem_mem _) _ (List.getElem_mem _)
  · intro b hb m hm
    rw [hrow b hb]
    have hbpos : b < positions.length := by omega
    have hMlen : (positions.getD b []).length = M := by
      rw [List.getD_eq_getElem _ [] hbpos]
      exact hPM _ (List.getElem_mem _)
    have hmlen : m < (positions.getD b []).length := by omega
    rw [List.getD_eq_getElem _ [] (by simpa using hmlen), List.getElem_map]
    have hq : (positions.getD b []).getD m 0 = (positions.getD b [])[m] :=
      List.getD_eq_getElem _ 0 hmlen
    rw [← hq]
    refine hentry b hb _ ?_
    refine hrange (positions.getD b []) ?_ ((positions.getD b []).getD m 0) ?_
    · rw [List.getD_eq_getElem _ [] hbpos]
      exact List.getElem_mem _
    · rw [hq]
      exact List.getElem_mem _

/-- Hidden-state tensor of the spec's end-to-end gather scenario:
shape (2, 4, 3) filled with the sequential values 0..23. -/
def exInputs : List (List (List ℚ)) :=
  [[[0, 1, 2], [3, 4, 5], [6, 7, 8], [9, 10, 11]],
   [[12, 13, 14], [15, 16, 17], [18, 19, 20], [21, 22, 23]]]

/-- Position tensor of the spec's end-to-end gather scenario. -/
def exPositions : List (List Nat) := [[0, 2], [1, 3]]

/-- Witness for C1: the gather contract instantiated at the spec's
B=2, S=4, H=3, M=2 scenario. -/
theorem gather_positions_correct_witness :
    (exInputs.length = 2 ∧ (∀ r ∈ exInputs, r.length = 4) ∧
      (∀ r ∈ exInputs, ∀ v ∈ r, v.length = 3) ∧
      exPositions.length = 2 ∧ (∀ p ∈ exPositions, p.length = 2) ∧
      (∀ p ∈ exPositions, ∀ q ∈ p, q < 4)) ∧
    ((gather_positions exInputs exPositions).length = 2 ∧
    (∀ row ∈ gather_positions exInputs exPositions, row.length = 2) ∧
    (∀ row ∈ gather_positions exInputs exPositions, ∀ v ∈ row, v.length = 3) ∧
    (∀ b, b < 2 → ∀ m, m < 2 →
      ((gather_positions exInputs exPositions).getD b []).getD m [] =
        (exInputs.getD b []).getD ((exPositions.getD b []).getD m 0) [])) :=
  ⟨⟨by decide, by decide, by decide, by decide, by decide, by decide⟩,
    gather_positions_correct exInputs exPositions 2 4 3 2
      (by decide) (by decide) (by decide) (by decide) (by decide) (by decide)⟩

/-- C8: applying `gather_positions` with a position tensor whose row for every
batch element is [0, 1, ..., S-1] in order returns the original hidden-state
tensor unchanged. -/
theorem gather_positions_roundtrip (inputs : List (List (List ℚ))) (S : Nat)
    (hS : ∀ r ∈ inputs, r.length = S) :
    gather_positions inputs (List.replicate inputs.length (List.range S)) = inputs := by
  have hPB : (List.replicate inputs.length (List.range S)).length = inputs.length := by
    simp
  have hPM : ∀ p ∈ List.replicate inputs.length (List.range S), p.length = S := by
    intro p hp
    rw [List.eq_of_mem_replicate hp]
    simp
  rw [gather_positions_eq inputs (List.replicate inputs.length (List.range S)) S S hS hPB hPM]
  refine List.ext_getElem (by simp) ?_
  intro b hb1 hb2
  rw [List.getElem_map, List.getElem_zip, List.getElem_replicate, List.getElem_map,
    List.getElem_range]
  refine List.ext_getElem (by simp [hS _ (List.getElem_mem _)]) ?_
  intro q hq1 hq2
  have hblen : b < inputs.length := by simpa using hb2
  have hqS : q < S := by simpa using hq1
  rw [List.getElem_map, List.getElem_range, Nat.add_comm,
    flatten_getD inputs S [] hS b q hblen hqS,
    List.getD_eq_getElem _ [] hblen,
    List.getD_eq_getElem _ [] (by rw [hS _ (List.getElem_mem _)]; exact hqS)]

/-- Witness for C8: the round-trip at the concrete (2, 4, 3) hidden tensor. -/
theorem gather_positions_roundtrip_witness :
    (∀ r ∈ exInputs, r.length = 4) ∧
    gather_positions exInputs (List.replicate exInputs.length (List.range 4)) = exInputs :=
  ⟨by decide, gather_positions_roundtrip exInputs 4 (by decide)⟩

/-! ## LARS optimizer (lars_optimizer.py) -/

/-- TF dtypes appearing in the optimizer's configuration. -/
inductive DType
  | float16
  | float32
  deriving DecidableEq

/-- Errors surfaced by the optimizer: `invalidArgument` embeds the
`ValueError` raised for a malformed compute-precision tuple (the spec's
`InvalidArgument` class), `notImplemented` the `NotImplementedError` of the
sparse path (the spec's `Unsupported`). -/
inductive OptimizerError
  | invalidArgument
  | notImplemented
  deriving DecidableEq

/-- Modelled from the framework: `tf.keras.backend.epsilon()` returns 1e-7
by default. -/
def keras_backend_epsilon : ℚ := 1 / 10 ^ 7

/-- Embedding of line 89, `self.epsilon = epsilon or tf.keras.backend.epsilon()`:
a Python float is falsy exactly when it equals zero, so a zero epsilon is
replaced by the Keras backend epsilon and any other value is kept. -/
def init_epsilon (epsilon : ℚ) : ℚ :=
  if epsilon = 0 then keras_backend_epsilon else epsilon

/-- Configuration state of a constructed `LARSIpuOptimizer` (lines 83-100):
the hyperparameters set by `_set_hyper`, the stored epsilon, the two
exclusion pattern lists (a Python `None` list is embedded as `[]`; both make
the matching loops in `_do_use_weight_decay` / `_do_layer_adaptation`
trivially return `True`), the Nesterov flag, the momentum-slot dtype
override and the compute-precision tuple. -/
structure LarsConfig where
  learning_rate : ℚ
  momentum : ℚ
  weight_decay : ℚ
  eeta : ℚ
  epsilon : ℚ
  decay : ℚ
  exclude_from_weight_decay : List String
  exclude_from_layer_adaptation : List String
  use_nesterov : Bool
  m_dtype : Option DType
  opt_dtypes : List DType
  deriving DecidableEq

/-- Embedding of `LARSIpuOptimizer.__init__` (lines 33-100): the constructor
stores the hyperparameters, applies the epsilon replacement of line 89, and
raises `ValueError` when `optimizer_compute_precisions` does not have exactly
two elements (lines 95-100). -/
def lars_init (learning_rate momentum weight_decay eeta epsilon : ℚ)
    (exclude_from_weight_decay exclude_from_layer_adaptation : List String)
    (m_dtype : Option DType) (opt_dtypes : List DType) (use_nesterov : Bool)
    (decay : ℚ) : Except OptimizerError LarsConfig :=
  if opt_dtypes.length ≠ 2 then Except.error OptimizerError.invalidArgument
  else Except.ok
    { learning_rate := learning_rate
      momentum := momentum
      weight_decay := weight_decay
      eeta := eeta
      epsilon := init_epsilon epsilon
      decay := decay
      exclude_from_weight_decay := exclude_from_weight_decay
      exclude_from_layer_adaptation := exclude_from_layer_adaptation
      use_nesterov := use_nesterov
      m_dtype := m_dtype
      opt_dtypes := opt_dtypes }

/-- Contiguous-occurrence test on character lists: `occursIn needle hay` is
`true` when `needle` occurs as a contiguous run inside `hay` (an empty needle
occurs everywhere). -/
def occursIn (needle : List Char) : List Char → Bool
  | [] => needle.isEmpty
  | c :: rest => needle.isPrefixOf (c :: rest) || occursIn needle rest

/-- Embedding of `re.search(r, param_name) is not None` for the exclusion
patterns: the exclusion lists hold literal (regex-metacharacter-free) pattern
strings, for which a regex search succeeds exactly when the pattern occurs as
a substring of the name (cf. the constructor docstring: "Variables whose name
contain a substring matching the pattern will be excluded"). -/
def regex_search (r param_name : String) : Bool :=
  occursIn r.toList param_name.toList

/-- Embedding of `_get_variable_name` (lines 219-224):
`re.match("^(.*):\d+$", param_name)` succeeds exactly when the name ends in a
colon followed by a nonempty digit run — the digits of `\d+$` are a suffix of
the maximal trailing digit run, and the character before them must be `:`,
which forces the match to strip precisely that maximal run — and the greedy
group `(.*)` is everything before that colon. -/
def get_variable_name (param_name : String) : String :=
  let rev := param_name.toList.reverse
  let ds := rev.takeWhile Char.isDigit
  let rest := rev.dropWhile Char.isDigit
  match ds, rest with
  | _ :: _, ':' :: kept => String.mk kept.reverse
  | _, _ => param_name

/-- Embedding of `_do_use_weight_decay` (lines 202-208): `False` exactly when
some pattern of `exclude_from_weight_decay` matches the name. -/
def do_use_weight_decay (cfg : LarsConfig) (param_name : String) : Bool :=
  !cfg.exclude_from_weight_decay.any (fun r => regex_search r param_name)

/-- Embedding of `_do_layer_adaptation` (lines 210-217): `False` exactly when
some pattern of `exclude_from_layer_adaptation` matches the name. -/
def do_layer_adaptation (cfg : LarsConfig) (param_name : String) : Bool :=
  !cfg.exclude_from_layer_adaptation.any (fun r => regex_search r param_name)

/-- L2 norm of a flattened tensor: `linalg_ops.norm(·, ord=2)` with the
default `axis=None` (lines 139-140) treats the whole tensor as one vector. -/
noncomputable def l2norm (v : List ℝ) : ℝ :=
  Real.sqrt ((v.map (fun x => x * x)).sum)

/-- Trust-ratio arithmetic of `compute_trust_ratio` (lines 151-157): the
nested `array_ops.where` over the scalar norms `w_norm` and `g_norm`, with
`weight_decay` already replaced by `0` when the variable is excluded from
weight decay. -/
noncomputable def trust_ratio_val (eeta epsilon weight_decay w_norm g_norm : ℝ) : ℝ :=
  if 0 < w_norm then
    if 0 < g_norm then eeta * w_norm / (g_norm + weight_decay * w_norm + epsilon)
    else 1
  else 1

/-- Embedding of `compute_trust_ratio` (lines 128-161): both norms are taken
on the incoming tensors before weight decay is folded into the gradient;
the gradient receives `weight_decay * var` elementwise unless the variable is
excluded from weight decay, in which case `weight_decay` is zeroed for the
denominator; a variable excluded from layer adaptation gets trust ratio 1 and
an untouched gradient.  `compute_dtype` casts are identities in exact
arithmetic.  Returns `(trust_ratio, grad)` as in the source. -/
noncomputable def compute_trust_ratio (cfg : LarsConfig) (name : String)
    (grad var : List ℝ) : ℝ × List ℝ :=
  let var_name := get_variable_name name
  if do_layer_adaptation cfg var_name then
    let w_norm := l2norm var
    let g_norm := l2norm grad
    let grad' := if do_use_weight_decay cfg var_name then
        (grad.zip var).map (fun p => p.1 + (cfg.weight_decay : ℝ) * p.2)
      else grad
    let wd : ℝ := if do_use_weight_decay cfg var_name then (cfg.weight_decay : ℝ) else 0
    (trust_ratio_val (cfg.eeta : ℝ) (cfg.epsilon : ℝ) wd w_norm g_norm, grad')
  else ((1 : ℝ), grad)

/-- TF `training_ops.resource_apply_momentum` on one tensor element:
`accum ← momentum·accum + grad` followed by `var ← var − lr·accum`, or the
Nesterov form `var ← var − (grad·lr + accum·momentum·lr)`.  Returns
`(new_var, new_accum)`. -/
noncomputable def resource_apply_momentum (v accum lr grad momentum : ℝ)
    (use_nesterov : Bool) : ℝ × ℝ :=
  let accum' := momentum * accum + grad
  if use_nesterov then (v - (grad * lr + accum' * momentum * lr), accum')
  else (v - lr * accum', accum')

/-- Embedding of `_resource_apply_dense` (lines 163-187), elementwise over a
variable, its momentum slot and its gradient (all of the same shape).  The
coefficient `lr_t` is the base class's decayed learning rate, which equals
the stored learning rate at `decay = 0` and is embedded as such; the fused
momentum primitive receives `lr = 1.0` and the gradient pre-multiplied by
`scaled_lr = lr_t * trust_ratio`.  Returns `(new_var, new_accum)`. -/
noncomputable def resource_apply_dense (cfg : LarsConfig) (name : String)
    (grad var accum : List ℝ) : List ℝ × List ℝ :=
  let tr := compute_trust_ratio cfg name grad var
  let scaled_lr := (cfg.learning_rate : ℝ) * tr.1
  let upd := (var.zip accum).zip tr.2
  (upd.map (fun p =>
      (resource_apply_momentum p.1.1 p.1.2 1 (p.2 * scaled_lr) (cfg.momentum : ℝ)
        cfg.use_nesterov).1),
   upd.map (fun p =>
      (resource_apply_momentum p.1.1 p.1.2 1 (p.2 * scaled_lr) (cfg.momentum : ℝ)
        cfg.use_nesterov).2))

/-- Modelled from the spec: `LARSIpuOptimizer` overrides only the dense apply
path; `_resource_apply_sparse` is absent from the source file, so a
sparse-gradient apply falls through to the external base class, whose default
raises `NotImplementedError` — the class docstring (lines 30-31) states
"Update for Sparse tensors is not implemented". -/
def resource_apply_sparse (cfg : LarsConfig) (name : String)
    (grad var accum : List ℝ) (indices : List Nat) :
    Except OptimizerError (List ℝ × List ℝ) :=
  Except.error OptimizerError.notImplemented

/-- Contents of the dictionary returned by `get_config` (lines 189-200)
beyond the base class's portion: the five serialized hyperparameters, the
stored epsilon and the momentum-slot dtype override.  The base class portion
(name, gradient clipping) carries none of the remaining constructor
parameters: the exclusion lists, `use_nesterov` and
`optimizer_compute_precisions` are not serialized. -/
structure SavedConfig where
  learning_rate : ℚ
  weight_decay : ℚ
  decay : ℚ
  momentum : ℚ
  eeta : ℚ
  epsilon : ℚ
  m_dtype : Option DType
  deriving DecidableEq

/-- Embedding of `get_config` (lines 189-200). -/
def get_config (cfg : LarsConfig) : SavedConfig :=
  { learning_rate := cfg.learning_rate
    weight_decay := cfg.weight_decay
    decay := cfg.decay
    momentum := cfg.momentum
    eeta := cfg.eeta
    epsilon := cfg.epsilon
    m_dtype := cfg.m_dtype }

/-- Keras reconstruction from a saved configuration: `from_config` calls the
constructor with the saved keys, and every constructor parameter absent from
the saved configuration — the two exclusion lists, `use_nesterov` and
`optimizer_compute_precisions` — takes its declaration default (lines 41-45). -/
def from_config (sc : SavedConfig) : Except OptimizerError LarsConfig :=
  lars_init sc.learning_rate sc.momentum sc.weight_decay sc.eeta sc.epsilon
    [] [] sc.m_dtype [DType.float32, DType.float32] false sc.decay

lemma l2norm_singleton (x : ℝ) (hx : 0 ≤ x) : l2norm [x] = x := by
  simp only [l2norm, List.map_cons, List.map_nil, List.sum_cons, List.sum_nil, add_zero]
  exact Real.sqrt_mul_self hx

/-- C2: in `compute_trust_ratio`, for every variable not excluded from layer
adaptation: a zero variable norm gives trust ratio 1 regardless of the
gradient; a positive variable norm with a zero gradient norm gives trust
ratio 1; and two positive norms give
eeta · w_norm / (g_norm + λ · w_norm + epsilon), where λ is the stored
weight-decay rate, taken as 0 when the variable is excluded from weight
decay. -/
theorem compute_trust_ratio_cases (cfg : LarsConfig) (name : String)
    (grad var : List ℝ)
    (hla : do_layer_adaptation cfg (get_variable_name name) = true) :
    (l2norm var = 0 → (compute_trust_ratio cfg name grad var).1 = 1) ∧
    (0 < l2norm var → l2norm grad = 0 → (compute_trust_ratio cfg name grad var).1 = 1) ∧
    (0 < l2norm var → 0 < l2norm grad →
      (compute_trust_ratio cfg name grad var).1 =
        (cfg.eeta : ℝ) * l2norm var /
          (l2norm grad +
            (if do_use_weight_decay cfg (get_variable_name name) then
              (cfg.weight_decay : ℝ) else 0) * l2norm var + (cfg.epsilon : ℝ))) := by
  simp only [compute_trust_ratio, hla, if_true]
  refine ⟨?_, ?_, ?_⟩
  · intro h0
    simp [trust_ratio_val, h0]
  · intro hw hg
    simp [trust_ratio_val, if_pos hw, hg]
  · intro hw hg
    simp [trust_ratio_val, if_pos hw, if_pos hg]

/-- Optimizer configuration of the spec's end-to-end scenario, as produced by
the constructor from learning rate 0.1, momentum 0, weight decay 0, eeta 1
and the epsilon argument 0 (stored as the Keras backend epsilon), with no
exclusion patterns. -/
def scenarioConfig : LarsConfig :=
  { learning_rate := 1 / 10
    momentum := 0
    weight_decay := 0
    eeta := 1
    epsilon := 1 / 10 ^ 7
    decay := 0
    exclude_from_weight_decay := []
    exclude_from_layer_adaptation := []
    use_nesterov := false
    m_dtype := none
    opt_dtypes := [DType.float32, DType.float32] }

/-- Witness for C2 at the scenario configuration and a scalar variable. -/
theorem compute_trust_ratio_cases_witness :
    do_layer_adaptation scenarioConfig (get_variable_name "v:0") = true ∧
    ((l2norm [(0 : ℝ)] = 0 →
        (compute_trust_ratio scenarioConfig "v:0" [1] [0]).1 = 1) ∧
     (0 < l2norm [(0 : ℝ)] → l2norm [(1 : ℝ)] = 0 →
        (compute_trust_ratio scenarioConfig "v:0" [1] [0]).1 = 1) ∧
     (0 < l2norm [(0 : ℝ)] → 0 < l2norm [(1 : ℝ)] →
        (compute_trust_ratio scenarioConfig "v:0" [1] [0]).1 =
          (scenarioConfig.eeta : ℝ) * l2norm [(0 : ℝ)] /
            (l2norm [(1 : ℝ)] +
              (if do_use_weight_decay scenarioConfig (get_variable_name "v:0") then
                (scenarioConfig.weight_decay : ℝ) else 0) * l2norm [(0 : ℝ)] +
              (scenarioConfig.epsilon : ℝ)))) :=
  ⟨by decide, compute_trust_ratio_cases scenarioConfig "v:0" [1] [0] (by decide)⟩

/-- C5: a variable whose base name matches a pattern of
`exclude_from_weight_decay`, and which is not excluded from layer adaptation,
keeps its raw gradient — no weight-decay term is folded in — and the
trust-ratio denominator uses weight decay 0. -/
theorem weight_decay_excluded (cfg : LarsConfig) (name : String) (grad var : List ℝ)
    (hmatch : ∃ r ∈ cfg.exclude_from_weight_decay,
      regex_search r (get_variable_name name) = true)
    (hla : do_layer_adaptation cfg (get_variable_name name) = true) :
    (compute_trust_ratio cfg name grad var).2 = grad ∧
    (compute_trust_ratio cfg name grad var).1 =
      trust_ratio_val (cfg.eeta : ℝ) (cfg.epsilon : ℝ) 0 (l2norm var) (l2norm grad) := by
  have hwd : do_use_weight_decay cfg (get_variable_name name) = false := by
    obtain ⟨r, hr, hsearch⟩ := hmatch
    simp only [do_use_weight_decay, Bool.not_eq_false', List.any_eq_true]
    exact ⟨r, hr, hsearch⟩
  simp [compute_trust_ratio, hla, hwd]

/-- Configuration whose weight-decay exclusion list holds the pattern
"bias", used to exercise the exclusion machinery. -/
def biasConfig : LarsConfig :=
  { learning_rate := 1 / 10
    momentum := 9 / 10
    weight_decay := 1 / 10000
    eeta := 1 / 1000
    epsilon := 1 / 10 ^ 7
    decay := 0
    exclude_from_weight_decay := ["bias"]
    exclude_from_layer_adaptation := []
    use_nesterov := false
    m_dtype := none
    opt_dtypes := [DType.float32, DType.float32] }

/-- Witness for C5: the variable "dense/bias:0" matches the "bias" exclusion
pattern after stripping the ":0" suffix. -/
theorem weight_decay_excluded_witness :
    (∃ r ∈ biasConfig.exclude_from_weight_decay,
      regex_search r (get_variable_name "dense/bias:0") = true) ∧
    do_layer_adaptation biasConfig (get_variable_name "dense/bias:0") = true ∧
    ((compute_trust_ratio biasConfig "dense/bias:0" [2] [5]).2 = [2] ∧
     (compute_trust_ratio biasConfig "dense/bias:0" [2] [5]).1 =
       trust_ratio_val (biasConfig.eeta : ℝ) (biasConfig.epsilon : ℝ) 0
         (l2norm [(5 : ℝ)]) (l2norm [(2 : ℝ)])) :=
  ⟨⟨"bias", by decide, by decide⟩, by decide,
    weight_decay_excluded biasConfig "dense/bias:0" [2] [5]
      ⟨"bias", by decide, by decide⟩ (by decide)⟩

/-- C7: with both norms positive, holding the gradient norm, the weight-decay
rate and epsilon fixed, the trust ratio is strictly increasing in the
variable norm (for a positive eeta and nonnegative weight decay and
epsilon). -/
theorem trust_ratio_val_mono (eeta epsilon weight_decay g_norm w1 w2 : ℝ)
    (heeta : 0 < eeta) (heps : 0 ≤ epsilon) (hwd : 0 ≤ weight_decay)
    (hg : 0 < g_norm) (hw1 : 0 < w1) (hw12 : w1 < w2) :
    trust_ratio_val eeta epsilon weight_decay w1 g_norm <
      trust_ratio_val eeta epsilon weight_decay w2 g_norm := by
  have hw2 : 0 < w2 := lt_trans hw1 hw12
  simp only [trust_ratio_val, if_pos hw1, if_pos hw2, if_pos hg]
  have hd1 : 0 < g_norm + weight_decay * w1 + epsilon := by
    have := mul_nonneg hwd hw1.le
    linarith
  have hd2 : 0 < g_norm + weight_decay * w2 + epsilon := by
    have := mul_nonneg hwd hw2.le
    linarith
  rw [div_lt_div_iff hd1 hd2]
  nlinarith [mul_pos (add_pos_of_pos_of_nonneg (mul_pos heeta hg)
      (mul_nonneg heeta.le heps)) (sub_pos.mpr hw12)]

/-- Witness for C7 at eeta = 1, epsilon = 0, weight decay = 0, g_norm = 1 and
variable norms 1 < 2. -/
theorem trust_ratio_val_mono_witness :
    (0 < (1 : ℝ) ∧ (0 : ℝ) ≤ 0 ∧ (0 : ℝ) ≤ 0 ∧ 0 < (1 : ℝ) ∧ 0 < (1 : ℝ) ∧
      (1 : ℝ) < 2) ∧
    trust_ratio_val 1 0 0 1 1 < trust_ratio_val 1 0 0 2 1 :=
  ⟨⟨by norm_num, le_refl 0, le_refl 0, by norm_num, by norm_num, by norm_num⟩,
    trust_ratio_val_mono 1 0 0 1 1 2 (by norm_num) (le_refl 0) (le_refl 0)
      (by norm_num) (by norm_num) (by norm_num)⟩

/-- C4: constructing the optimizer with epsilon 0 — the only falsy Python
float — silently stores the Keras backend epsilon 1e-7 in place of the
argument, so the stored epsilon used in the trust-ratio denominator is never
exactly zero; a nonzero epsilon argument is stored unchanged. -/
theorem epsilon_replacement (lr mom wd ee dec e : ℚ) (x1 x2 : List String)
    (md : Option DType) (nv : Bool) :
    Except.map LarsConfig.epsilon
        (lars_init lr mom wd ee 0 x1 x2 md [DType.float32, DType.float32] nv dec) =
      Except.ok keras_backend_epsilon ∧
    keras_backend_epsilon = 1 / 10 ^ 7 ∧
    init_epsilon e ≠ 0 ∧
    (e ≠ 0 →
      Except.map LarsConfig.epsilon
          (lars_init lr mom wd ee e x1 x2 md [DType.float32, DType.float32] nv dec) =
        Except.ok e) := by
  refine ⟨?_, rfl, ?_, ?_⟩
  · simp [lars_init, init_epsilon, Except.map]
  · by_cases he : e = 0
    · simp [init_epsilon, he, keras_backend_epsilon]
    · simp [init_epsilon, he]
  · intro he
    simp [lars_init, init_epsilon, he, Except.map]

/-- Witness for C4 at the nonzero epsilon argument 5. -/
theorem epsilon_replacement_witness :
    (5 : ℚ) ≠ 0 ∧
    (Except.map LarsConfig.epsilon
        (lars_init 1 0 0 1 0 [] [] none [DType.float32, DType.float32] false 0) =
      Except.ok keras_backend_epsilon ∧
    keras_backend_epsilon = 1 / 10 ^ 7 ∧
    init_epsilon 5 ≠ 0 ∧
    Except.map LarsConfig.epsilon
        (lars_init 1 0 0 1 5 [] [] none [DType.float32, DType.float32] false 0) =
      Except.ok 5) :=
  ⟨by norm_num,
    (epsilon_replacement 1 0 0 1 0 5 [] [] none false).1,
    (epsilon_replacement 1 0 0 1 0 5 [] [] none false).2.1,
    (epsilon_replacement 1 0 0 1 0 5 [] [] none false).2.2.1,
    (epsilon_replacement 1 0 0 1 0 5 [] [] none false).2.2.2 (by norm_num)⟩

/-- C6: every invocation of the sparse-gradient update path deterministically
fails with the not-implemented error instead of applying any update. -/
theorem sparse_apply_unsupported (cfg : LarsConfig) (name : String)
    (grad var accum : List ℝ) (indices : List Nat) :
    resource_apply_sparse cfg name grad var accum indices =
      Except.error OptimizerError.notImplemented := rfl

/-- C9: construction with a compute-precision tuple whose length is not 2
raises the invalid-argument error; with a length-2 tuple, construction
succeeds. -/
theorem init_precision_check (lr mom wd ee e dec : ℚ) (x1 x2 : List String)
    (md : Option DType) (nv : Bool) (dts : List DType) :
    (dts.length ≠ 2 →
      lars_init lr mom wd ee e x1 x2 md dts nv dec =
        Except.error OptimizerError.invalidArgument) ∧
    (dts.length = 2 →
      ∃ cfg, lars_init lr mom wd ee e x1 x2 md dts nv dec = Except.ok cfg) := by
  constructor
  · intro h
    simp [lars_init, h]
  · intro h
    refine ⟨⟨lr, mom, wd, ee, init_epsilon e, dec, x1, x2, nv, md, dts⟩, ?_⟩
    unfold lars_init
    rw [if_neg (by omega)]

/-- Witness for C9 at a length-1 and a length-2 precision tuple. -/
theorem init_precision_check_witness :
    (([DType.float32] : List DType).length ≠ 2 ∧
      lars_init 1 0 0 1 0 [] [] none [DType.float32] false 0 =
        Except.error OptimizerError.invalidArgument) ∧
    (([DType.float32, DType.float32] : List DType).length = 2 ∧
      ∃ cfg, lars_init 1 0 0 1 0 [] [] none [DType.float32, DType.float32] false 0 =
        Except.ok cfg) :=
  ⟨⟨by decide,
      (init_precision_check 1 0 0 1 0 0 [] [] none false [DType.float32]).1 (by decide)⟩,
   ⟨rfl,
      (init_precision_check 1 0 0 1 0 0 [] [] none false
        [DType.float32, DType.float32]).2 rfl⟩⟩

lemma compute_trust_ratio_scenario :
    compute_trust_ratio scenarioConfig "v:0" [1] [4] =
      (40000000 / 10000001, [1]) := by
  have hla : do_layer_adaptation scenarioConfig (get_variable_name "v:0") = true := by
    decide
  have hwd : do_use_weight_decay scenarioConfig (get_variable_name "v:0") = true := by
    decide
  have h4 : l2norm [(4 : ℝ)] = 4 := l2norm_singleton 4 (by norm_num)
  have h1 : l2norm [(1 : ℝ)] = 1 := l2norm_singleton 1 (by norm_num)
  simp only [compute_trust_ratio, hla, hwd, if_true, h4, h1, trust_ratio_val,
    Prod.mk.injEq]
  norm_num [scenarioConfig]

lemma resource_apply_dense_scenario :
    resource_apply_dense scenarioConfig "v:0" [1] [4] [0] =
      ([36000004 / 10000001], [4000000 / 10000001]) := by
  simp only [resource_apply_dense, compute_trust_ratio_scenario, resource_apply_momentum,
    List.zip_cons_cons, List.zip_nil_right, List.map_cons, List.map_nil, Prod.mk.injEq,
    Bool.false_eq_true, if_false]
  norm_num [scenarioConfig]

lemma lars_init_scenario :
    lars_init (1 / 10) 0 0 1 0 [] [] none [DType.float32, DType.float32] false 0 =
      Except.ok scenarioConfig := by
  unfold lars_init
  rw [if_neg (by decide)]
  norm_num [scenarioConfig, init_epsilon, keras_backend_epsilon]

/-- C3 counterexample: with the claim's constructor arguments (epsilon
argument 0), line 89 stores the backend epsilon 1e-7 instead of 0, so the
dense step at v = 4.0, g = 1.0 does not compute trust ratio 4.0, does not set
the accumulator to 0.4, and does not update the variable to exactly 3.6. -/
theorem scenario_not_exact :
    lars_init (1 / 10) 0 0 1 0 [] [] none [DType.float32, DType.float32] false 0 =
      Except.ok scenarioConfig ∧
    (compute_trust_ratio scenarioConfig "v:0" [1] [4]).1 ≠ 4 ∧
    (resource_apply_dense scenarioConfig "v:0" [1] [4] [0]).2 ≠ [(4 : ℝ) / 10] ∧
    (resource_apply_dense scenarioConfig "v:0" [1] [4] [0]).1 ≠ [(36 : ℝ) / 10] := by
  refine ⟨lars_init_scenario, ?_, ?_, ?_⟩
  · rw [compute_trust_ratio_scenario]
    norm_num
  · rw [resource_apply_dense_scenario]
    intro h
    rw [List.cons.injEq] at h
    norm_num at h
  · rw [resource_apply_dense_scenario]
    intro h
    rw [List.cons.injEq] at h
    norm_num at h

/-- C3 amended: under the constructor arguments of the claim the stored
epsilon is the backend epsilon 1e-7, and one dense apply step at v = 4.0,
g = 1.0 computes trust ratio 4/(1 + 1e-7) = 40000000/10000001 ≈ 3.9999996,
scaled learning rate 0.4/(1 + 1e-7) = 4000000/10000001 ≈ 0.39999996, sets the
momentum accumulator to that scaled value and updates the variable to
4 − 4000000/10000001 = 36000004/10000001 ≈ 3.60000004. -/
theorem scenario_exact_values :
    lars_init (1 / 10) 0 0 1 0 [] [] none [DType.float32, DType.float32] false 0 =
      Except.ok scenarioConfig ∧
    scenarioConfig.epsilon = keras_backend_epsilon ∧
    (compute_trust_ratio scenarioConfig "v:0" [1] [4]).1 = 40000000 / 10000001 ∧
    (scenarioConfig.learning_rate : ℝ) *
        (compute_trust_ratio scenarioConfig "v:0" [1] [4]).1 = 4000000 / 10000001 ∧
    resource_apply_dense scenarioConfig "v:0" [1] [4] [0] =
      ([36000004 / 10000001], [4000000 / 10000001]) := by
  refine ⟨lars_init_scenario, rfl, ?_, ?_, resource_apply_dense_scenario⟩
  · rw [compute_trust_ratio_scenario]
  · rw [compute_trust_ratio_scenario]
    norm_num [scenarioConfig]

lemma init_epsilon_idem (e : ℚ) : init_epsilon (init_epsilon e) = init_epsilon e := by
  by_cases he : e = 0
  · norm_num [init_epsilon, he, keras_backend_epsilon]
  · simp [init_epsilon, he]

/-- Optimizer configuration with a layer-adaptation exclusion pattern, used
to show that `get_config` loses the exclusion lists. -/
def c10Config : LarsConfig :=
  { learning_rate := 1 / 10
    momentum := 0
    weight_decay := 0
    eeta := 1
    epsilon := 1
    decay := 0
    exclude_from_weight_decay := []
    exclude_from_layer_adaptation := ["v"]
    use_nesterov := false
    m_dtype := none
    opt_dtypes := [DType.float32, DType.float32] }

/-- Reconstruction of `c10Config` through `from_config ∘ get_config`: the
exclusion pattern is lost and replaced by the constructor default. -/
def c10Reconstructed : LarsConfig :=
  { learning_rate := 1 / 10
    momentum := 0
    weight_decay := 0
    eeta := 1
    epsilon := 1
    decay := 0
    exclude_from_weight_decay := []
    exclude_from_layer_adaptation := []
    use_nesterov := false
    m_dtype := none
    opt_dtypes := [DType.float32, DType.float32] }

/-- C10 counterexample: `get_config` omits the exclusion lists (and
`use_nesterov` and `optimizer_compute_precisions`), so an optimizer
reconstructed from the export does not behave identically: the optimizer
constructed with layer-adaptation exclusion pattern "v" gives the variable
"v:0" trust ratio 1, while its reconstruction computes trust ratio 2 on the
same input. -/
theorem get_config_counterexample :
    lars_init (1 / 10) 0 0 1 1 [] ["v"] none [DType.float32, DType.float32] false 0 =
      Except.ok c10Config ∧
    from_config (get_config c10Config) = Except.ok c10Reconstructed ∧
    (compute_trust_ratio c10Config "v:0" [1] [4]).1 = 1 ∧
    (compute_trust_ratio c10Reconstructed "v:0" [1] [4]).1 = 2 ∧
    (1 : ℝ) ≠ 2 := by
  refine ⟨?_, ?_, ?_, ?_, by norm_num⟩
  · unfold lars_init
    rw [if_neg (by decide)]
    norm_num [c10Config, init_epsilon]
  · unfold from_config get_config lars_init
    rw [if_neg (by decide)]
    norm_num [c10Config, c10Reconstructed, init_epsilon]
  · have hla : do_layer_adaptation c10Config (get_variable_name "v:0") = false := by
      decide
    simp [compute_trust_ratio, hla]
  · have hla : do_layer_adaptation c10Reconstructed (get_variable_name "v:0") = true := by
      decide
    have hwd : do_use_weight_decay c10Reconstructed (get_variable_name "v:0") = true := by
      decide
    have h4 : l2norm [(4 : ℝ)] = 4 := l2norm_singleton 4 (by norm_num)
    have h1 : l2norm [(1 : ℝ)] = 1 := l2norm_singleton 1 (by norm_num)
    simp only [compute_trust_ratio, hla, hwd, if_true, h4, h1, trust_ratio_val]
    norm_num [c10Reconstructed]

/-- C10 amended: `get_config` exports the learning rate, weight-decay rate,
decay, momentum coefficient, eeta, stored epsilon and momentum-accumulator
dtype override, and an optimizer whose remaining constructor parameters — the
two exclusion lists, `use_nesterov` and `optimizer_compute_precisions`, which
are not serialized — are at their constructor defaults is reconstructed
identically by `from_config` after `get_config`; reconstruction is not
behavior-preserving for other values of those parameters. -/
theorem get_config_roundtrip (lr mom wd ee e dec : ℚ) (md : Option DType)
    (cfg : LarsConfig)
    (h : lars_init lr mom wd ee e [] [] md [DType.float32, DType.float32] false dec =
      Except.ok cfg) :
    get_config cfg = ⟨lr, wd, dec, mom, ee, init_epsilon e, md⟩ ∧
    from_config (get_config cfg) = Except.ok cfg := by
  unfold lars_init at h
  rw [if_neg (by decide)] at h
  obtain rfl : (⟨lr, mom, wd, ee, init_epsilon e, dec, [], [], false, md,
      [DType.float32, DType.float32]⟩ : LarsConfig) = cfg := Except.ok.inj h
  refine ⟨rfl, ?_⟩
  unfold from_config get_config lars_init
  rw [if_neg (by decide)]
  simp [init_epsilon_idem]

/-- Witness for the amended C10 at a concrete default-parameter optimizer. -/
theorem get_config_roundtrip_witness :
    (lars_init (1 / 10) 0 0 1 1 [] [] none [DType.float32, DType.float32] false 0 =
      Except.ok c10Reconstructed) ∧
    (get_config c10Reconstructed = ⟨1 / 10, 0, 0, 0, 1, init_epsilon 1, none⟩ ∧
     from_config (get_config c10Reconstructed) = Except.ok c10Reconstructed) := by
  have h : lars_init (1 / 10) 0 0 1 1 [] [] none [DType.float32, DType.float32] false 0 =
      Except.ok c10Reconstructed := by
    unfold lars_init
    rw [if_neg (by decide)]
    norm_num [c10Reconstructed, init_epsilon]
  exact ⟨h, get_config_roundtrip (1 / 10) 0 0 1 1 0 none c10Reconstructed h⟩
